import Mathlib

/-!
Verification of the expense-backend repository core:
validation and normalization (src/validation.ts), the Mongo-backed store
operations (src/database.ts), and the HTTP route orchestration (src/index.ts).

Modelling conventions:
* JavaScript numbers are modelled exactly: a finite number is a rational value
  paired with the string produced by its `toString()` (the code inspects that
  string for the decimal-places check); `NaN` and the two infinities are
  separate constructors.  Comparisons act on the rational value.
* JavaScript strings are Lean `String`s; `trim` is modelled on the ASCII
  whitespace characters actually exercised here.
* The Mongo collection is a `List Expense`.  The node driver is used with its
  default `ignoreUndefined := false`, so an `undefined` field value is
  serialized as BSON `null` both in filters and in inserted documents; a
  filter value of `null` matches stored `null`.  Since every document in the
  collection is inserted whole by `createExpense`, a stored absent key is
  always the literal `null`, so `Option String` (with `none` for `null`)
  models the `idempotency_key` field faithfully.
* `findOneAndUpdate` with `upsert: true`, `$setOnInsert` and
  `returnDocument: 'after'` returns the first document matching the filter
  unchanged when one exists, and otherwise inserts the candidate and returns
  it.
-/

/-! ### Data model (src/types.ts) -/

/-- Persisted expense record (src/types.ts, `Expense`): the amount is the
integer count of minor units (paise). -/
structure Expense where
  id : String
  amount : Int
  category : String
  description : String
  date : String
  created_at : String
  idempotency_key : Option String
deriving DecidableEq, Repr

/-- Transient creation input (src/types.ts, `CreateExpenseInput`): the amount
is a decimal number in major units. -/
structure CreateExpenseInput where
  amount : ℚ
  category : String
  description : String
  date : String
  idempotency_key : Option String
deriving DecidableEq, Repr

/-- Response shape (src/types.ts, `ExpenseResponse`): display-unit amount. -/
structure ExpenseResponse where
  id : String
  amount : ℚ
  category : String
  description : String
  date : String
  created_at : String
deriving DecidableEq, Repr

/-- Error payload (src/types.ts, `ApiError`). -/
structure ApiError where
  error : String
  details : Option (List String)
deriving DecidableEq, Repr

/-- Result of validation (src/types.ts, `ValidationResult`). -/
structure ValidationResult where
  valid : Bool
  errors : List String
deriving DecidableEq, Repr

/-- Paginated listing result (src/database.ts lines 34-40). -/
structure PaginatedResult (α : Type) where
  data : List α
  total : Nat
  page : Int
  limit : Int
  totalPages : Int
deriving DecidableEq, Repr

/-! ### JavaScript value model -/

/-- A JavaScript number: `NaN`, an infinity, or a finite value carrying its
exact rational value together with the string `toString()` renders it as. -/
inductive JSNum where
  | nan : JSNum
  | inf (neg : Bool) : JSNum
  | fin (q : ℚ) (rep : String) : JSNum
deriving DecidableEq, Repr

/-- A JavaScript value as it can appear in a request-body field. -/
inductive JSVal where
  | undef : JSVal
  | null : JSVal
  | num (n : JSNum) : JSVal
  | str (s : String) : JSVal
  | boolean (b : Bool) : JSVal
  | objVal : JSVal
deriving DecidableEq, Repr

/-- The five body fields read by the validator; a missing property reads as
`undefined` in JavaScript, so `undef` covers both absent and explicitly
undefined fields. -/
structure InputFields where
  amount : JSVal
  category : JSVal
  description : JSVal
  date : JSVal
  idempotency_key : JSVal
deriving DecidableEq, Repr

/-- The whole request body: either a value failing the guard
`!input || typeof input !== 'object'` (null, undefined, or any primitive), or
a non-null object carrying the five fields of interest. -/
inductive JSInput where
  | notObject : JSInput
  | object (f : InputFields) : JSInput
deriving DecidableEq, Repr

/-- JavaScript truthiness of a field value. -/
def jsTruthy : JSVal → Bool
  | .undef => false
  | .null => false
  | .num .nan => false
  | .num (.inf _) => true
  | .num (.fin q _) => q != 0
  | .str s => s != ""
  | .boolean b => b
  | .objVal => true

/-- ASCII whitespace as trimmed by `String.prototype.trim` (the characters
exercised by this code base). -/
def jsWhitespace (c : Char) : Bool :=
  c == ' ' || c == '\t' || c == '\n' || c == '\r'

/-- Model of `s.trim()`: drop leading and trailing whitespace. -/
def jsTrim (s : String) : String :=
  ⟨((s.toList.dropWhile jsWhitespace).reverse.dropWhile jsWhitespace).reverse⟩

/-- Model of `Math.round(q)`: round half toward positive infinity. -/
def jsRound (q : ℚ) : ℤ := ⌊q + 1 / 2⌋

/-- Characters of the fragment of `rep` between the first `.` and the next
`.` (or the end): the value of `rep.split('.')[1]`, empty when there is no
dot. -/
def fracPart (cs : List Char) : List Char :=
  match cs.dropWhile (fun c => c != '.') with
  | [] => []
  | _ :: rest => rest.takeWhile (fun c => c != '.')

/-- Length of the fractional digit block of a number's string form. -/
def fracLen (s : String) : Nat := (fracPart s.toList).length

/-! ### Validator (src/validation.ts lines 3-95) -/

/-- The closed category set (src/validation.ts lines 3-12). -/
def VALID_CATEGORIES : List String :=
  ["Food", "Transport", "Entertainment", "Shopping", "Bills", "Healthcare",
   "Education", "Other"]

/-- Amount rules (src/validation.ts lines 23-39), an `else if` chain: the
first failing check contributes the only message.  `isNaN` is false on the
infinities, `-Infinity <= 0` holds, and `Infinity > 100000000` holds, which
is how non-finite inputs are rejected. -/
def amountErrors : JSVal → List String
  | .undef => ["Amount is required"]
  | .null => ["Amount is required"]
  | .num .nan => ["Amount must be a valid number"]
  | .num (.inf true) => ["Amount must be greater than 0"]
  | .num (.inf false) => ["Amount exceeds maximum allowed value"]
  | .num (.fin q rep) =>
    if q ≤ 0 then ["Amount must be greater than 0"]
    else if 100000000 < q then ["Amount exceeds maximum allowed value"]
    else if 2 < fracLen rep then ["Amount can have at most 2 decimal places"]
    else []
  | _ => ["Amount must be a valid number"]

/-- Category rules (src/validation.ts lines 42-48). -/
def categoryErrors (v : JSVal) : List String :=
  if !jsTruthy v then ["Category is required"]
  else
    match v with
    | .str s =>
      if s ∈ VALID_CATEGORIES then []
      else ["Category must be one of: Food, Transport, Entertainment, Shopping, Bills, Healthcare, Education, Other"]
    | _ => ["Category must be a string"]

/-- Description rules (src/validation.ts lines 51-59): note the `else if`
chain, so a whitespace-only description over 500 characters long only
reports emptiness. -/
def descriptionErrors (v : JSVal) : List String :=
  if !jsTruthy v then ["Description is required"]
  else
    match v with
    | .str s =>
      if (jsTrim s).length = 0 then ["Description cannot be empty"]
      else if 500 < s.length then ["Description must be 500 characters or less"]
      else []
    | _ => ["Description must be a string"]

/-- Test of the literal pattern used at src/validation.ts line 68:
four digits, dash, two digits, dash, two digits, anchored. -/
def dateRegexTest (s : String) : Bool :=
  match s.toList with
  | [a, b, c, d, h1, e, f, h2, g, h] =>
    a.isDigit && b.isDigit && c.isDigit && d.isDigit && h1 == '-' &&
    e.isDigit && f.isDigit && h2 == '-' && g.isDigit && h.isDigit
  | _ => false

/-- Gregorian leap-year rule, as applied by `Date` parsing. -/
def isLeapYear (y : Nat) : Bool :=
  (y % 4 == 0 && y % 100 != 0) || y % 400 == 0

/-- Days in a month, as applied by `Date` parsing. -/
def daysInMonth (y m : Nat) : Nat :=
  if m == 2 then (if isLeapYear y then 29 else 28)
  else if m == 4 || m == 6 || m == 9 || m == 11 then 30
  else 31

/-- Model of `new Date(s).getTime()` for a string already matching the
`YYYY-MM-DD` pattern: `none` for an invalid calendar date, otherwise an
ordinal `y * 10000 + m * 100 + d` that is order-isomorphic to the actual
timestamp over valid dates. -/
def parseIsoDate (s : String) : Option Int :=
  match s.toList with
  | [a, b, c, d, _, e, f, _, g, h] =>
    let y := ((a.toNat - 48) * 10 + (b.toNat - 48)) * 10 + (c.toNat - 48)
    let y := y * 10 + (d.toNat - 48)
    let m := (e.toNat - 48) * 10 + (f.toNat - 48)
    let dd := (g.toNat - 48) * 10 + (h.toNat - 48)
    if 1 ≤ m && m ≤ 12 && 1 ≤ dd && dd ≤ daysInMonth y m then
      some ((y : Int) * 10000 + (m : Int) * 100 + (dd : Int))
    else none
  | _ => none

/-- Date rules (src/validation.ts lines 62-83).  The one-year-future cutoff
`maxFutureDate` is computed from the wall clock by the source; it enters the
model as an explicit parameter in the same ordinal scale as `parseIsoDate`.
An invalid parse compares as `NaN > maxFutureDate = false`, so the invalid
and too-far-future messages never co-occur. -/
def dateErrors (maxFutureDate : Int) (v : JSVal) : List String :=
  if !jsTruthy v then ["Date is required"]
  else
    match v with
    | .str s =>
      if !dateRegexTest s then ["Date must be in YYYY-MM-DD format"]
      else
        match parseIsoDate s with
        | none => ["Date is not a valid date"]
        | some t =>
          if maxFutureDate < t then ["Date cannot be more than 1 year in the future"]
          else []
    | _ => ["Date must be a string"]

/-- Idempotency-key rules (src/validation.ts lines 86-92): checked only when
the field is not `undefined`; a `null` key is a non-string. -/
def keyErrors : JSVal → List String
  | .undef => []
  | .str s => if 100 < s.length then ["Idempotency key must be 100 characters or less"] else []
  | _ => ["Idempotency key must be a string"]

/-- Validator (src/validation.ts lines 14-95): a non-object body yields the
single terminal message; otherwise each field block contributes its
messages into one list and `valid` is the emptiness of that list.  The
function is total, modelling that validation never raises. -/
def validateExpenseInput (maxFutureDate : Int) : JSInput → ValidationResult
  | .notObject => { valid := false, errors := ["Request body must be a valid JSON object"] }
  | .object f =>
    let errors :=
      amountErrors f.amount ++ categoryErrors f.category ++
      descriptionErrors f.description ++ dateErrors maxFutureDate f.date ++
      keyErrors f.idempotency_key
    { valid := errors.length == 0, errors := errors }

/-! ### Normalizer (src/validation.ts lines 97-105) -/

/-- Sanitizer (src/validation.ts lines 97-105): round the amount via
`Math.round(a * 100) / 100`, trim the four string fields (the optional key
through optional chaining). -/
def sanitizeInput (i : CreateExpenseInput) : CreateExpenseInput :=
  { amount := (jsRound (i.amount * 100) : ℚ) / 100
    category := jsTrim i.category
    description := jsTrim i.description
    date := jsTrim i.date
    idempotency_key := i.idempotency_key.map jsTrim }

example : jsTrim "  Food  " = "Food" := by decide
example : fracLen "10.123" = 3 := by decide
example : fracLen "100" = 0 := by decide
example : parseIsoDate "2024-01-15" = some 20240115 := by decide
example : parseIsoDate "2024-02-30" = none := by decide
example : (validateExpenseInput 20990101 (.object
    { amount := .num (.fin 0 "0"), category := .str "Food",
      description := .str "Lunch", date := .str "2024-01-15",
      idempotency_key := .undef })).errors = ["Amount must be greater than 0"] := by decide
example : (sanitizeInput
    { amount := 100.556, category := " Food ", description := " Lunch ",
      date := " 2024-01-15 ", idempotency_key := some " k1 " }).category = "Food" := by decide
example : (sanitizeInput
    { amount := 100.556, category := " Food ", description := " Lunch ",
      date := " 2024-01-15 ", idempotency_key := some " k1 " }).amount = 100.56 := by
  norm_num [sanitizeInput, jsRound]

/-! ### ExpenseStore (src/database.ts) -/

/-- The expenses collection: the documents in insertion order. -/
abbrev Store := List Expense

/-- Atomic create-or-get (src/database.ts lines 47-57):
`findOneAndUpdate({ idempotency_key }, { $setOnInsert: expense },
{ upsert: true, returnDocument: 'after' })`.  With the driver's default
serialization an absent (`undefined`) key becomes the filter value `null`,
which matches any stored record whose key is `null`; when a record matches,
`$setOnInsert` changes nothing and the matched record is returned, otherwise
the candidate is inserted and returned.  Returns the collection after the
call together with the returned document. -/
def createExpense (s : Store) (expense : Expense) : Store × Expense :=
  match s.find? (fun r => r.idempotency_key == expense.idempotency_key) with
  | some r => (s, r)
  | none => (s ++ [expense], expense)

/-- Point lookup by id (src/database.ts lines 59-62). -/
def findById (s : Store) (id : String) : Option Expense :=
  s.find? (fun r => r.id == id)

/-- Point lookup by idempotency key (src/database.ts lines 64-67). -/
def findByIdempotencyKey (s : Store) (key : String) : Option Expense :=
  s.find? (fun r => r.idempotency_key == some key)

/-- A partial update document, as passed to `$set` (src/database.ts line 73):
`none` fields are not touched. -/
structure ExpenseUpdate where
  id : Option String
  amount : Option Int
  category : Option String
  description : Option String
  date : Option String
  created_at : Option String
  idempotency_key : Option (Option String)
deriving DecidableEq, Repr

/-- Apply a `$set` document to a record: present fields replace, absent
fields keep their prior value. -/
def applySet (e : Expense) (u : ExpenseUpdate) : Expense :=
  { id := u.id.getD e.id
    amount := u.amount.getD e.amount
    category := u.category.getD e.category
    description := u.description.getD e.description
    date := u.date.getD e.date
    created_at := u.created_at.getD e.created_at
    idempotency_key := u.idempotency_key.getD e.idempotency_key }

/-- Update-by-id (src/database.ts lines 69-76): `findOneAndUpdate({ id },
{ $set: updates }, { returnDocument: 'after' })` updates the first record
with that id and returns the post-update record, or `none` when no record
matches. -/
def updateExpense : Store → String → ExpenseUpdate → Store × Option Expense
  | [], _, _ => ([], none)
  | r :: rest, id, u =>
    if r.id == id then (applySet r u :: rest, some (applySet r u))
    else ((r :: (updateExpense rest id u).1), (updateExpense rest id u).2)

/-- Delete-by-id (src/database.ts lines 78-82): `deleteOne({ id })` removes
the first matching record; the boolean reports whether one was removed. -/
def deleteExpense (s : Store) (id : String) : Store × Bool :=
  match s.find? (fun r => r.id == id) with
  | some r => (s.erase r, true)
  | none => (s, false)

/-- A listing-query value as express delivers it: absent, a string, or an
array of strings (repeated query parameters). -/
inductive QueryVal where
  | undef : QueryVal
  | str (s : String) : QueryVal
  | strArr (l : List String) : QueryVal
deriving DecidableEq, Repr

/-- JavaScript truthiness of a query value: the empty string is falsy, any
array (even empty) is truthy. -/
def queryTruthy : QueryVal → Bool
  | .undef => false
  | .str s => s != ""
  | .strArr _ => true

/-- Whether a record passes the category filter built at src/database.ts
lines 92-93: a falsy value installs no filter; a string filter is an
equality match; an array filter value never equals a string category. -/
def matchesCategory (v : QueryVal) (e : Expense) : Bool :=
  if !queryTruthy v then true
  else
    match v with
    | .str c => e.category == c
    | _ => false

/-- Sort direction, the two values of the `sort` parameter. -/
inductive SortDir where
  | asc : SortDir
  | desc : SortDir
deriving DecidableEq, Repr

/-- Lexicographic strict order on character lists by codepoint. -/
def lexLtB : List Char → List Char → Bool
  | [], [] => false
  | [], _ :: _ => true
  | _ :: _, [] => false
  | a :: as, b :: bs =>
    if a.toNat < b.toNat then true
    else if a.toNat = b.toNat then lexLtB as bs
    else false

/-- The store's string comparison (binary lexicographic, which on the ASCII
dates and timestamps here coincides with codepoint order). -/
def strLtB (a b : String) : Bool := lexLtB a.toList b.toList

/-- Non-strict counterpart of `strLtB`. -/
def strLeB (a b : String) : Bool := !strLtB b a

/-- The comparison `sort({ date: sortOrder, created_at: sortOrder })`
(src/database.ts lines 95-100): by date, ties broken by creation time, both
in the same direction. -/
def expenseLe (sd : SortDir) (a b : Expense) : Bool :=
  match sd with
  | .asc =>
    if strLtB a.date b.date then true
    else if a.date == b.date then strLeB a.created_at b.created_at
    else false
  | .desc =>
    if strLtB b.date a.date then true
    else if a.date == b.date then strLeB b.created_at a.created_at
    else false

/-- Insert into a list sorted by `le`. -/
def insertOrd (le : Expense → Expense → Bool) (x : Expense) : List Expense → List Expense
  | [] => [x]
  | y :: ys => if le x y then x :: y :: ys else y :: insertOrd le x ys

/-- Sort a list by `le` (insertion sort; the store's sort is any sort by the
same key). -/
def sortByOrd (le : Expense → Expense → Bool) : List Expense → List Expense
  | [] => []
  | x :: xs => insertOrd le x (sortByOrd le xs)

/-- Records ordered as the store returns them for a sort direction. -/
def sortExpenses (sd : SortDir) (l : List Expense) : List Expense :=
  sortByOrd (expenseLe sd) l

/-- Filtered, sorted, paginated listing (src/database.ts lines 84-115).
`total` counts the filter matches; with `limit > 0` the cursor skips
`(page - 1) * limit` records and takes `limit` (the model clamps the skip at
zero, which coincides with the source for every `page ≥ 1`); with
`limit ≤ 0` no skip or limit is applied and the result is a single page
whose reported `limit` is the total and whose `totalPages` is 1.
`Math.ceil(total / limit)` is the rational ceiling. -/
def getExpenses (s : Store) (category : QueryVal) (sort : SortDir)
    (page : Int) (limit : Int) : PaginatedResult Expense :=
  let matching := s.filter (matchesCategory category)
  let total := matching.length
  let sorted := sortExpenses sort matching
  { data := if 0 < limit then (sorted.drop ((page - 1) * limit).toNat).take limit.toNat else sorted
    total := total
    page := if 0 < limit then page else 1
    limit := if 0 < limit then limit else (total : Int)
    totalPages := if 0 < limit then ⌈(total : ℚ) / (limit : ℚ)⌉ else 1 }

/-! ### Routes (src/index.ts) -/

/-- Render a stored expense for a response (src/index.ts lines 23-32):
divide the minor-unit amount by 100. -/
def toExpenseResponse (e : Expense) : ExpenseResponse :=
  { id := e.id
    amount := (e.amount : ℚ) / 100
    category := e.category
    description := e.description
    date := e.date
    created_at := e.created_at }

/-- Truthiness of the optional sanitized key (`if (input.idempotency_key)`,
src/index.ts line 51): present and non-empty. -/
def keyTruthy : Option String → Bool
  | some k => k != ""
  | none => false

/-- Build the candidate record (src/index.ts lines 60-68): fresh id,
minor-unit amount via `Math.round(amount * 100)`, server timestamp. -/
def buildCandidate (i : CreateExpenseInput) (newId now : String) : Expense :=
  { id := newId
    amount := jsRound (i.amount * 100)
    category := i.category
    description := i.description
    date := i.date
    created_at := now
    idempotency_key := i.idempotency_key }

/-- The create route after validation has passed (src/index.ts lines 47-73),
with the store interleaving made explicit: `sPre` is the collection state the
pre-check read observes (line 52) and `sUpsert` the state when the atomic
upsert executes (line 70); a sequential call has `sPre = sUpsert`.  When the
pre-check finds the key the existing record is returned with status 200.
Otherwise the candidate is built and upserted — and the handler ignores the
document `createExpense` returns, answering 201 with the candidate. -/
def postExpensesRace (sPre sUpsert : Store) (body : CreateExpenseInput)
    (newId now : String) : Store × Nat × ExpenseResponse :=
  let input := sanitizeInput body
  if keyTruthy input.idempotency_key then
    match input.idempotency_key with
    | some k =>
      match findByIdempotencyKey sPre k with
      | some existing => (sUpsert, 200, toExpenseResponse existing)
      | none =>
        let expense := buildCandidate input newId now
        ((createExpense sUpsert expense).1, 201, toExpenseResponse expense)
    | none =>
      let expense := buildCandidate input newId now
      ((createExpense sUpsert expense).1, 201, toExpenseResponse expense)
  else
    let expense := buildCandidate input newId now
    ((createExpense sUpsert expense).1, 201, toExpenseResponse expense)

/-- Digits-to-number accumulator for the `parseInt` model. -/
def digitsVal (cs : List Char) : Nat :=
  cs.foldl (fun a c => a * 10 + (c.toNat - 48)) 0

/-- Model of `parseInt(s)` on decimal inputs: skip leading whitespace, read
an optional sign and then leading decimal digits; `none` models `NaN`. -/
def parseIntStr (s : String) : Option Int :=
  match s.toList.dropWhile jsWhitespace with
  | '-' :: rest =>
    let ds := rest.takeWhile Char.isDigit
    if ds.isEmpty then none else some (-(digitsVal ds : Int))
  | '+' :: rest =>
    let ds := rest.takeWhile Char.isDigit
    if ds.isEmpty then none else some (digitsVal ds : Int)
  | rest =>
    let ds := rest.takeWhile Char.isDigit
    if ds.isEmpty then none else some (digitsVal ds : Int)

/-- `parseInt` applied to a raw query value: `undefined` and arrays are first
coerced to strings (`"undefined"` yields `NaN`; an array joins with commas). -/
def jsParseInt : QueryVal → Option Int
  | .undef => none
  | .str s => parseIntStr s
  | .strArr l => parseIntStr (String.intercalate "," l)

/-- The `x || d` defaulting applied to a `parseInt` result: `NaN` and `0` are
falsy and fall back to the default. -/
def jsOr (o : Option Int) (d : Int) : Int :=
  match o with
  | none => d
  | some 0 => d
  | some n => n

/-- The raw query parameters of the list route. -/
structure GetQuery where
  category : QueryVal
  sort : QueryVal
  page : QueryVal
  limit : QueryVal
deriving DecidableEq, Repr

/-- The category guard at src/index.ts line 99:
`category && typeof category === 'string' &&
!VALID_CATEGORIES.includes(category)` — only a truthy (non-empty) string
value outside the closed set trips it; arrays and the empty string do not. -/
def invalidCategoryParam : QueryVal → Bool
  | .str c => c != "" && !(decide (c ∈ VALID_CATEGORIES))
  | _ => false

/-- The response body of the list route. -/
structure ListResponse where
  data : List ExpenseResponse
  total : Nat
  page : Int
  limit : Int
  totalPages : Int
deriving DecidableEq, Repr

/-- The list route (src/index.ts lines 94-130): reject an invalid category
parameter with a 400 payload before touching the store; otherwise default
page to 1 and limit to 0, resolve the sort direction (anything other than
the exact string `date_asc` sorts descending), query the store and convert
each amount for display. -/
def getExpensesRoute (q : GetQuery) (s : Store) : Except ApiError ListResponse :=
  if invalidCategoryParam q.category then
    .error { error := "Invalid category"
             details := some ["Category must be one of: Food, Transport, Entertainment, Shopping, Bills, Healthcare, Education, Other"] }
  else
    let pageNum := jsOr (jsParseInt q.page) 1
    let limitNum := jsOr (jsParseInt q.limit) 0
    let sortOrder := if q.sort == .str "date_asc" then SortDir.asc else SortDir.desc
    let result := getExpenses s q.category sortOrder pageNum limitNum
    .ok { data := result.data.map toExpenseResponse
          total := result.total
          page := result.page
          limit := result.limit
          totalPages := result.totalPages }

/-- The `$set` document built by the update route (src/index.ts lines
162-167): exactly the four payload fields, never id, created_at or the
idempotency key. -/
def routeUpdates (input : CreateExpenseInput) : ExpenseUpdate :=
  { id := none
    amount := some (jsRound (input.amount * 100))
    category := some input.category
    description := some input.description
    date := some input.date
    created_at := none
    idempotency_key := none }

/-! ### Concrete fixtures used by the example parts of the theorems -/

/-- A keyless expense record. -/
def e1a : Expense :=
  { id := "a1", amount := 100, category := "Food", description := "first",
    date := "2024-01-01", created_at := "T1", idempotency_key := none }

/-- A second keyless expense record, with a distinct id. -/
def e1b : Expense :=
  { id := "b2", amount := 200, category := "Bills", description := "second",
    date := "2024-01-02", created_at := "T2", idempotency_key := none }

/-- An expense record keyed `k1`. -/
def e1c : Expense :=
  { id := "c3", amount := 300, category := "Food", description := "third",
    date := "2024-01-03", created_at := "T3", idempotency_key := some "k1" }

/-- An expense record keyed `k2`, with a distinct id. -/
def e1d : Expense :=
  { id := "d4", amount := 400, category := "Food", description := "fourth",
    date := "2024-01-04", created_at := "T4", idempotency_key := some "k2" }

/-- A record keyed `K` already persisted when a racing create executes. -/
def r2 : Expense :=
  { id := "id0", amount := 10000, category := "Food", description := "winner",
    date := "2024-01-01", created_at := "T0", idempotency_key := some "K" }

/-- A creation body carrying the same key `K`. -/
def inp2 : CreateExpenseInput :=
  { amount := 250, category := "Food", description := "loser",
    date := "2024-01-02", idempotency_key := some "K" }

/-- A string of 501 blanks: whitespace-only and over the 500-character cap. -/
def longBlank : String := ⟨List.replicate 501 ' '⟩

/-- A body whose description violates two description rules at once and whose
other fields are valid. -/
def ex3 : InputFields :=
  { amount := .num (.fin 100 "100"), category := .str "Food",
    description := .str longBlank, date := .str "2024-01-15",
    idempotency_key := .undef }

/-- A body with the given amount and all other fields valid. -/
def amountExample (n : JSNum) : InputFields :=
  { amount := .num n, category := .str "Food", description := .str "Lunch",
    date := .str "2024-01-15", idempotency_key := .undef }

/-- A list request whose category parameter is an array value (repeated query
parameter), which is present and is not a member of the closed set. -/
def q5arr : GetQuery :=
  { category := .strArr ["Gadgets"], sort := .undef, page := .undef, limit := .undef }

/-- One stored Food expense for the list-route counterexample. -/
def e5x : Expense :=
  { id := "x1", amount := 100, category := "Food", description := "d",
    date := "2024-01-01", created_at := "T1", idempotency_key := none }

/-- Two decimal digits of a number below 100. -/
def twoDigits (n : Nat) : String :=
  ⟨[Char.ofNat (48 + n / 10), Char.ofNat (48 + n % 10)]⟩

/-- The n-th expense of the pagination example, dated on day n. -/
def mkExp (n : Nat) : Expense :=
  { id := "e" ++ twoDigits n, amount := (n : Int), category := "Food",
    description := "d", date := "2024-01-" ++ twoDigits n,
    created_at := "T" ++ twoDigits n, idempotency_key := none }

/-- Twenty-five matching records for the pagination example. -/
def store25 : Store := (List.range 25).map (fun n => mkExp (n + 1))

/-- The normalization example of the specification. -/
def ex8 : CreateExpenseInput :=
  { amount := 100.556, category := " Food ", description := " Lunch ",
    date := " 2024-01-15 ", idempotency_key := some " k1 " }

/-- A stored record for the update frame-condition witness. -/
def rW : Expense :=
  { id := "w1", amount := 500, category := "Food", description := "old",
    date := "2024-01-01", created_at := "T0", idempotency_key := some "KW" }

/-- An update body for the update frame-condition witness. -/
def inpW : CreateExpenseInput :=
  { amount := 3, category := "Bills", description := "new",
    date := "2024-02-02", idempotency_key := none }


/-! ### Helper lemmas -/

/-- Each amount chain contributes at most one message. -/
theorem amountErrors_length_le (v : JSVal) : (amountErrors v).length ≤ 1 := by
  cases v with
  | num n =>
    cases n with
    | nan => simp [amountErrors]
    | inf neg => cases neg <;> simp [amountErrors]
    | fin q rep => simp only [amountErrors]; split_ifs <;> simp
  | undef => simp [amountErrors]
  | null => simp [amountErrors]
  | str s => simp [amountErrors]
  | boolean b => simp [amountErrors]
  | objVal => simp [amountErrors]

/-- Each category chain contributes at most one message. -/
theorem categoryErrors_length_le (v : JSVal) : (categoryErrors v).length ≤ 1 := by
  cases v <;> simp only [categoryErrors] <;> split_ifs <;> simp

/-- Each description chain contributes at most one message. -/
theorem descriptionErrors_length_le (v : JSVal) : (descriptionErrors v).length ≤ 1 := by
  cases v <;> simp only [descriptionErrors] <;> split_ifs <;> simp

/-- Each date chain contributes at most one message. -/
theorem dateErrors_length_le (maxFutureDate : Int) (v : JSVal) :
    (dateErrors maxFutureDate v).length ≤ 1 := by
  cases v with
  | str s =>
    simp only [dateErrors]
    split_ifs
    · simp
    · simp
    · cases hp : parseIsoDate s with
      | none => simp [hp]
      | some t => simp only [hp]; split_ifs <;> simp
  | undef => simp [dateErrors, jsTruthy]
  | null => simp [dateErrors, jsTruthy]
  | num n => simp only [dateErrors]; split_ifs <;> simp
  | boolean b => simp only [dateErrors]; split_ifs <;> simp
  | objVal => simp only [dateErrors]; split_ifs <;> simp

/-- Each key chain contributes at most one message. -/
theorem keyErrors_length_le (v : JSVal) : (keyErrors v).length ≤ 1 := by
  cases v with
  | str s => simp only [keyErrors]; split_ifs <;> simp
  | undef => simp [keyErrors]
  | null => simp [keyErrors]
  | num n => simp [keyErrors]
  | boolean b => simp [keyErrors]
  | objVal => simp [keyErrors]

/-! ### Claim theorems -/

/-- Claim C1: the claim says that two createExpense calls with distinct keys,
or with no key at all, each persist their own record, the keyless insert
being unconditional.  The code violates the keyless half: the upsert filter
`idempotency_key: undefined` is serialized as `null` and matches the first
keyless record, so a second keyless call inserts nothing and even returns
the first record; only the distinct-keys half holds.  This theorem evaluates
`database.createExpense` at the failing input: after two keyless calls the
collection holds one record, not two. -/
theorem keyless_create_collapses :
    createExpense [] e1a = ([e1a], e1a)
    ∧ createExpense [e1a] e1b = ([e1a], e1a)
    ∧ ((createExpense [e1a] e1b).1).length = 1
    ∧ e1a.id ≠ e1b.id
    ∧ createExpense [e1c] e1d = ([e1c, e1d], e1d) := by
  refine ⟨rfl, rfl, rfl, ?_, rfl⟩
  decide

/-- Claim C2: the claim says a caller whose pre-check missed a concurrently
persisted record with the same key receives that pre-existing record.  The
code does keep the store at exactly one record (the atomic upsert inserts
nothing), and `createExpense` does return the pre-existing record — but the
route handler at src/index.ts line 70 discards that return value and answers
201 with the freshly built candidate, whose id and creation timestamp differ
from the persisted record's.  This theorem evaluates the handler at the
failing input. -/
theorem race_response_ignores_store_result :
    postExpensesRace [] [r2] inp2 "id1" "T1" =
      ([r2], 201, toExpenseResponse (buildCandidate (sanitizeInput inp2) "id1" "T1"))
    ∧ (createExpense [r2] (buildCandidate (sanitizeInput inp2) "id1" "T1")).2 = r2
    ∧ (toExpenseResponse (buildCandidate (sanitizeInput inp2) "id1" "T1")).id ≠ r2.id
    ∧ (toExpenseResponse (buildCandidate (sanitizeInput inp2) "id1" "T1")).created_at ≠ r2.created_at := by
  refine ⟨rfl, rfl, ?_, ?_⟩ <;> decide

set_option maxRecDepth 100000 in
/-- Claim C3, counterexample: the claim says the errors list holds one
message for every violated rule of a field, naming a whitespace-only
description longer than 500 characters as yielding both description
messages.  At exactly that input the code reports only the first violated
rule of the chain: the over-length message is absent. -/
theorem validate_single_message_per_field_cex :
    (jsTrim longBlank).length = 0
    ∧ 500 < longBlank.length
    ∧ (validateExpenseInput 20990101 (.object ex3)).errors = ["Description cannot be empty"]
    ∧ "Description must be 500 characters or less" ∉
        (validateExpenseInput 20990101 (.object ex3)).errors := by
  refine ⟨?_, ?_, ?_, ?_⟩ <;> decide

/-- Claim C3, amended: the errors list is the concatenation of the five
per-field chains, each contributing at most one message — the first violated
rule of its chain — so rules of distinct fields accumulate independently but
a second violated rule of the same field is not reported. -/
theorem validate_field_error_accumulation (maxFutureDate : Int) (f : InputFields) :
    (validateExpenseInput maxFutureDate (.object f)).errors =
      amountErrors f.amount ++ categoryErrors f.category ++
      descriptionErrors f.description ++ dateErrors maxFutureDate f.date ++
      keyErrors f.idempotency_key
    ∧ (amountErrors f.amount).length ≤ 1
    ∧ (categoryErrors f.category).length ≤ 1
    ∧ (descriptionErrors f.description).length ≤ 1
    ∧ (dateErrors maxFutureDate f.date).length ≤ 1
    ∧ (keyErrors f.idempotency_key).length ≤ 1 :=
  ⟨rfl, amountErrors_length_le f.amount, categoryErrors_length_le f.category,
   descriptionErrors_length_le f.description, dateErrors_length_le maxFutureDate f.date,
   keyErrors_length_le f.idempotency_key⟩

/-- Claim C10: for every input — non-object or object with fields of any
type — validation returns a result (the model is a total function) whose
valid flag is true exactly when the errors list is empty. -/
theorem validate_total_valid_iff_no_errors (maxFutureDate : Int) (input : JSInput) :
    (validateExpenseInput maxFutureDate input).valid = true ↔
      (validateExpenseInput maxFutureDate input).errors = [] := by
  cases input with
  | notObject => simp [validateExpenseInput]
  | object f => simp [validateExpenseInput, List.length_eq_zero]

/-- Claim C4: the amount checks pass exactly for a finite number whose value
is strictly positive and at most 100,000,000 and whose string form carries
at most two decimal digits; and the three documented examples each fail with
the documented message (the other fields of those inputs being valid). -/
theorem amount_checks_characterization :
    (∀ n : JSNum, amountErrors (.num n) = [] ↔
      ∃ q rep, n = .fin q rep ∧ 0 < q ∧ q ≤ 100000000 ∧ fracLen rep ≤ 2)
    ∧ (validateExpenseInput 20990101 (.object (amountExample (.fin 0 "0")))).errors =
        ["Amount must be greater than 0"]
    ∧ (validateExpenseInput 20990101 (.object (amountExample (.fin (-5) "-5")))).errors =
        ["Amount must be greater than 0"]
    ∧ (validateExpenseInput 20990101
        (.object (amountExample (.fin (mkRat 10123 1000) "10.123")))).errors =
        ["Amount can have at most 2 decimal places"] := by
  refine ⟨?_, by decide, by decide, by decide⟩
  intro n
  constructor
  · intro h
    cases n with
    | nan => simp [amountErrors] at h
    | inf neg => cases neg <;> simp [amountErrors] at h
    | fin q rep =>
      simp only [amountErrors] at h
      split_ifs at h with h1 h2 h3
      exact ⟨q, rep, rfl, not_le.mp h1, not_lt.mp h2, not_lt.mp h3⟩
  · rintro ⟨q, rep, rfl, h1, h2, h3⟩
    simp only [amountErrors]
    rw [if_neg (not_le.mpr h1), if_neg (not_lt.mpr h2), if_neg (not_lt.mpr h3)]

/-- Claim C5, counterexample: the claim says every list request whose
category parameter is present and not a member of the closed set is rejected
with 400 before any store call and never answered 200 with zero matching
records.  A repeated query parameter arrives as an array — present, and not
a member of the closed set — yet the guard at src/index.ts line 99 only
trips for string values, so the request reaches the store, the equality
filter matches no string category, and the route answers 200 with zero
matching records. -/
theorem list_array_category_returns_empty_ok :
    q5arr.category ≠ .undef
    ∧ (∀ c : String, q5arr.category ≠ .str c)
    ∧ getExpensesRoute q5arr [e5x] =
        .ok { data := [], total := 0, page := 1, limit := 0, totalPages := 1 } := by
  refine ⟨by decide, ?_, rfl⟩
  intro c
  simp [q5arr]

/-- Claim C5, amended: a list request whose category parameter is a
non-empty string outside the closed set is rejected with the 400
invalid-category payload, for every store state alike (the store is never
consulted); a non-string or empty-string category value is not rejected. -/
theorem list_invalid_string_category_rejected (q : GetQuery) (s : Store) (c : String)
    (hc : q.category = .str c) (hne : c ≠ "") (hnm : c ∉ VALID_CATEGORIES) :
    getExpensesRoute q s =
      .error { error := "Invalid category"
               details := some ["Category must be one of: Food, Transport, Entertainment, Shopping, Bills, Healthcare, Education, Other"] } := by
  have hg : invalidCategoryParam q.category = true := by
    rw [hc]
    simp [invalidCategoryParam, hne, hnm]
  simp [getExpensesRoute, hg]

/-- Witness for the amended claim C5 at a concrete request and store. -/
theorem list_invalid_string_category_rejected_witness :
    getExpensesRoute
      { category := .str "Gadgets", sort := .undef, page := .undef, limit := .undef }
      [e5x] =
      .error { error := "Invalid category"
               details := some ["Category must be one of: Food, Transport, Entertainment, Shopping, Bills, Healthcare, Education, Other"] } :=
  list_invalid_string_category_rejected
    { category := .str "Gadgets", sort := .undef, page := .undef, limit := .undef }
    [e5x] "Gadgets" rfl (by decide) (by decide)

/-- A product of nonnegative integers converts to the product of the
conversions. -/
theorem toNat_mul_of_nonneg (a b : Int) (ha : 0 ≤ a) (hb : 0 ≤ b) :
    (a * b).toNat = a.toNat * b.toNat := by
  obtain ⟨m, rfl⟩ := Int.eq_ofNat_of_zero_le ha
  obtain ⟨n, rfl⟩ := Int.eq_ofNat_of_zero_le hb
  rw [← Int.natCast_mul, Int.toNat_natCast, Int.toNat_natCast, Int.toNat_natCast]

set_option maxRecDepth 100000 in
/-- Claim C6: with limit 0 the listing returns every matching record as one
page whose reported page is 1, whose reported limit is the total and whose
totalPages is 1; with a positive limit it returns the page-th slice — the
skip `(page - 1) * limit` is the product of the page offset and the page
size — with totalPages the ceiling of total / limit; and the documented
25-record example returns records 11-20 with totalPages 3. -/
theorem getExpenses_pagination (s : Store) (c : QueryVal) (sd : SortDir)
    (page limit : Int) (hpage : 1 ≤ page) :
    getExpenses s c sd page 0 =
      { data := sortExpenses sd (s.filter (matchesCategory c))
        total := (s.filter (matchesCategory c)).length
        page := 1
        limit := ((s.filter (matchesCategory c)).length : Int)
        totalPages := 1 }
    ∧ (0 < limit →
        ((page - 1) * limit).toNat = (page - 1).toNat * limit.toNat
        ∧ (getExpenses s c sd page limit).data =
          ((sortExpenses sd (s.filter (matchesCategory c))).drop
            ((page - 1) * limit).toNat).take limit.toNat
        ∧ (getExpenses s c sd page limit).totalPages =
          ⌈((s.filter (matchesCategory c)).length : ℚ) / (limit : ℚ)⌉)
    ∧ (getExpenses store25 .undef .asc 2 10).data =
        (List.range 10).map (fun n => mkExp (n + 11))
    ∧ (getExpenses store25 .undef .asc 2 10).total = 25
    ∧ (getExpenses store25 .undef .asc 2 10).totalPages = 3 := by
  have hlen : ((store25.filter (matchesCategory .undef)).length : ℚ) = 25 := by
    norm_num [show (store25.filter (matchesCategory .undef)).length = 25 from by decide]
  refine ⟨by simp [getExpenses],
    fun h => ⟨toNat_mul_of_nonneg _ _ (by omega) (by omega),
      by simp [getExpenses, h], by simp [getExpenses, h]⟩,
    by decide, by decide, ?_⟩
  have h10 : (0 : Int) < 10 := by norm_num
  simp only [getExpenses, if_pos h10, hlen]
  rw [Int.ceil_eq_iff]
  norm_num

/-- Witness for claim C6 at a concrete page, limit and store. -/
theorem getExpenses_pagination_witness :
    (getExpenses store25 .undef .asc 2 10).total = 25 :=
  (getExpenses_pagination store25 .undef .asc 2 10 (by norm_num)).2.2.2.1

/-- Claim C7: for an amount that is positive, at most 100,000,000 and a
whole number of hundredths (at most 2 decimal digits), converting to minor
units by `Math.round(a * 100)` and back by dividing by 100 reproduces the
amount exactly. -/
theorem amount_round_trip_exact (a : ℚ) (h1 : 0 < a) (h2 : a ≤ 100000000)
    (h3 : ∃ k : ℤ, a = (k : ℚ) / 100) :
    ((jsRound (a * 100) : ℚ)) / 100 = a := by
  obtain ⟨k, rfl⟩ := h3
  have hk : (k : ℚ) / 100 * 100 = (k : ℚ) := by ring
  simp only [jsRound, hk]
  have hfl : ⌊(k : ℚ) + 1 / 2⌋ = k := by
    rw [add_comm, Int.floor_add_int]
    norm_num
  rw [hfl]

/-- Witness for claim C7 at the amount 123.45. -/
theorem amount_round_trip_exact_witness :
    ((jsRound ((123.45 : ℚ) * 100) : ℚ)) / 100 = (123.45 : ℚ) :=
  amount_round_trip_exact 123.45 (by norm_num) (by norm_num) ⟨12345, by norm_num⟩

/-- Claim C8: sanitization trims the category, description, date and
idempotency key, and replaces the amount by the original rounded to exactly
two decimal places (`Math.round(a * 100) / 100`): the result is a whole
number of hundredths within half a hundredth of the original; and the two
documented examples hold. -/
theorem sanitizeInput_spec :
    (∀ i : CreateExpenseInput,
      (sanitizeInput i).category = jsTrim i.category
      ∧ (sanitizeInput i).description = jsTrim i.description
      ∧ (sanitizeInput i).date = jsTrim i.date
      ∧ (sanitizeInput i).idempotency_key = i.idempotency_key.map jsTrim
      ∧ (sanitizeInput i).amount = (jsRound (i.amount * 100) : ℚ) / 100
      ∧ (∃ k : ℤ, (sanitizeInput i).amount = (k : ℚ) / 100)
      ∧ |(sanitizeInput i).amount - i.amount| ≤ 1 / 200)
    ∧ (sanitizeInput ex8).category = "Food"
    ∧ (sanitizeInput ex8).idempotency_key = some "k1"
    ∧ (sanitizeInput ex8).amount = 100.56 := by
  refine ⟨fun i => ⟨rfl, rfl, rfl, rfl, rfl, ⟨jsRound (i.amount * 100), rfl⟩, ?_⟩,
    by decide, by decide, by norm_num [sanitizeInput, jsRound, ex8]⟩
  have hl : ((⌊i.amount * 100 + 1 / 2⌋ : ℤ) : ℚ) ≤ i.amount * 100 + 1 / 2 :=
    Int.floor_le _
  have hg : i.amount * 100 + 1 / 2 < (⌊i.amount * 100 + 1 / 2⌋ : ℤ) + 1 :=
    Int.lt_floor_add_one _
  simp only [sanitizeInput, jsRound]
  rw [abs_le]
  constructor <;> [linarith; linarith]

/-- The document returned by update-by-id is the first id match with the
`$set` fields applied. -/
theorem updateExpense_snd (s : Store) (id : String) (u : ExpenseUpdate) :
    (updateExpense s id u).2 =
      (s.find? (fun r => r.id == id)).map (fun r => applySet r u) := by
  induction s with
  | nil => rfl
  | cons r rest ih =>
    cases h : (r.id == id) with
    | true => simp [updateExpense, List.find?, h]
    | false => simp [updateExpense, List.find?, h, ih]

/-- Claim C9: updating an existing record through the update route replaces
exactly the amount, category, description and date; the returned post-update
record keeps the prior id, creation timestamp and idempotency key. -/
theorem update_preserves_frame_fields (s : Store) (id : String)
    (body : CreateExpenseInput) (r : Expense)
    (h : findById s id = some r) :
    (updateExpense s id (routeUpdates (sanitizeInput body))).2 =
      some (applySet r (routeUpdates (sanitizeInput body)))
    ∧ (applySet r (routeUpdates (sanitizeInput body))).id = r.id
    ∧ (applySet r (routeUpdates (sanitizeInput body))).created_at = r.created_at
    ∧ (applySet r (routeUpdates (sanitizeInput body))).idempotency_key = r.idempotency_key
    ∧ (applySet r (routeUpdates (sanitizeInput body))).amount =
        jsRound ((sanitizeInput body).amount * 100)
    ∧ (applySet r (routeUpdates (sanitizeInput body))).category = (sanitizeInput body).category
    ∧ (applySet r (routeUpdates (sanitizeInput body))).description = (sanitizeInput body).description
    ∧ (applySet r (routeUpdates (sanitizeInput body))).date = (sanitizeInput body).date := by
  refine ⟨?_, rfl, rfl, rfl, rfl, rfl, rfl, rfl⟩
  rw [updateExpense_snd]
  simp only [findById] at h
  rw [h]
  rfl

/-- Witness for claim C9 at a concrete store and update body. -/
theorem update_preserves_frame_fields_witness :
    (applySet rW (routeUpdates (sanitizeInput inpW))).created_at = rW.created_at
    ∧ (applySet rW (routeUpdates (sanitizeInput inpW))).idempotency_key = rW.idempotency_key :=
  ⟨(update_preserves_frame_fields [rW] "w1" inpW rW rfl).2.2.1,
   (update_preserves_frame_fields [rW] "w1" inpW rW rfl).2.2.2.1⟩
